import Mathlib

/-!
# Verification of the linuxedu-backend VM orchestration core

A shallow embedding, in Lean 4, of the resource-allocation, hypervisor-gateway,
lifecycle, monitoring and node-selection logic of the repository
(`app/services/vm_services.py`, `app/services/vm_service.py`,
`app/services/vm_monitoring_service.py`, `app/services/load_balancing_service.py`,
`app/models/vm.py`), together with theorems settling the specification's claims.

Conventions of the embedding:
* Timestamps and durations are modelled as `Int` minutes (`timedelta(hours=12)`
  becomes `720`, `timedelta(minutes=m)` becomes `m`).
* CPU/memory percentages (Python floats) are modelled as exact rationals `ℚ`.
* Remote hypervisor / Ansible calls are modelled by passing their outcomes in
  explicitly: `Except Unit Bool` for a call that can either raise (`.error`)
  or return a boolean, `Bool` for one that only returns a boolean.
* The database session is modelled as explicit state (`CreateDB`, lists of
  records); a `SELECT ... FOR UPDATE` section is modelled as an atomic state
  transition, which is exactly what the row lock buys: concurrent callers are
  serialized through the locked section.
-/

namespace LinuxEdu

/-- The `VMStatus` enum from `app/models/vm.py`. -/
inductive VMStatus where
  | CREATED
  | PROVISIONING
  | READY
  | RUNNING
  | STOPPED
  | FAILED
  | DELETED
deriving DecidableEq, Repr

/-- The string value of each `VMStatus` member (it is a `str`-valued enum). -/
def VMStatus.value : VMStatus → String
  | .CREATED => "created"
  | .PROVISIONING => "provisioning"
  | .READY => "ready"
  | .RUNNING => "running"
  | .STOPPED => "stopped"
  | .FAILED => "failed"
  | .DELETED => "deleted"

/-- The `IPStatus` enum from `app/models/vm.py`. -/
inductive IPStatus where
  | FREE
  | ALLOCATED
  | RESERVED
deriving DecidableEq, Repr

/-- A row of `users_vms` (`class VM` in `app/models/vm.py`), restricted to the
columns the embedded logic reads or writes. -/
structure VMRec where
  /-- local primary key, assigned by the database -/
  id : Nat
  user_id : Nat
  proxmox_vm_id : Nat
  vm_name : String
  vm_status : VMStatus
  ip_address : Option String
  node : String
  runtime_expires_at : Option Int
  last_active_at : Option Int
deriving DecidableEq, Repr

/-- A row of `allocated_ips` (`class AllocatedIP` in `app/models/vm.py`). -/
structure IPRec where
  ip : String
  status : IPStatus
  user_id : Option Nat
deriving DecidableEq, Repr

/-- The single row of `vm_id_sequence` (`class VMIDSequence` in
`app/models/vm.py`): its only counter column is `next_vm_id`. -/
structure VMIDSequence where
  next_vm_id : Nat
deriving DecidableEq, Repr

/-- The attribute access `.next_id` that `VMService.create_vm`
(`vm_services.py` lines 458–459) and `VMService.reset_vm` (lines 620–621)
perform on the sequence row.  The ORM model defines no such attribute (the
column is `next_vm_id`, and `declarative_base` adds no `__getattr__`), so
in Python this access raises `AttributeError` on every execution; it is
modelled as `none`. -/
def VMIDSequence.next_id (_ : VMIDSequence) : Option Nat :=
  none

/-- The database state seen by the allocation/creation code paths: the
`users_vms` table, the single `vm_id_sequence` counter row, and the
`allocated_ips` table. -/
structure CreateDB where
  vms : List VMRec
  seq : VMIDSequence
  ips : List IPRec
deriving DecidableEq, Repr

/-! ## IP pool access (`VMService.create_vm` step 2, `allocate_resources`) -/

/-- Apply `f` to the first `Free` row of `allocated_ips` (the
`SELECT ... WHERE status free ... FOR UPDATE LIMIT 1` plus the subsequent
attribute writes on the locked row); returns the selected row (as read) and
the updated table, or `none` when no row is `Free`. -/
def updateFirstFree (f : IPRec → IPRec) : List IPRec → Option (IPRec × List IPRec)
  | [] => none
  | r :: rs =>
    if r.status = .FREE then some (r, f r :: rs)
    else match updateFirstFree f rs with
      | some (x, rs') => some (x, r :: rs')
      | none => none

/-- The row update `create_vm`'s IP-selection text performs on the locked
`Free` IP row (`allocated_ip.status = IPStatus.ALLOCATED`, line 468). -/
def markAllocated (r : IPRec) : IPRec :=
  { r with status := .ALLOCATED }

/-! ## `VMService.extend_time` (`vm_services.py` lines 706–749) and the
draft `VMService.extend_runtime` (`vm_service.py` lines 230–252) -/

/-- Error outcomes of `extend_time` (all surfaced as `HTTPException`s). -/
inductive ExtendErr where
  /-- HTTP 400, "Extension must be between 5 and 60 minutes" -/
  | invalidRange
  /-- HTTP 400, "VM is not running" -/
  | notRunning
  /-- HTTP 400, "Cannot extend beyond 12 hours limit" -/
  | capExceeded
  /-- `runtime_expires_at` is NULL: `None + timedelta` raises a `TypeError`
  that propagates out of the service call -/
  | internalNone
deriving DecidableEq, Repr

/-- Embedding of `VMService.extend_time` from `vm_services.py` (ownership lookup already
done; `now` is `datetime.utcnow()` in minutes). -/
def extend_time (vm : VMRec) (extension_minutes : Int) (now : Int) :
    Except ExtendErr VMRec :=
  if extension_minutes < 5 ∨ extension_minutes > 60 then .error .invalidRange
  else if vm.vm_status ≠ .RUNNING then .error .notRunning
  else match vm.runtime_expires_at with
    | none => .error .internalNone
    | some t =>
      let max_runtime := now + 720
      let new_expiry := t + extension_minutes
      if new_expiry > max_runtime then .error .capExceeded
      else .ok { vm with runtime_expires_at := some new_expiry,
                         last_active_at := some now }

/-- The other draft, `VMService.extend_runtime` from `vm_service.py`: returns a
success flag and the updated record; when the new expiry would exceed
`now + 12h` it is clamped to exactly `now + 12h`.  A `None` expiry makes the
`+ timedelta` raise, which the enclosing `except` turns into `False`. -/
def extend_runtime (vm : Option VMRec) (minutes : Int) (now : Int) :
    Bool × Option VMRec :=
  match vm with
  | none => (false, none)
  | some v =>
    if v.vm_status ≠ .RUNNING then (false, some v)
    else match v.runtime_expires_at with
      | none => (false, some v)
      | some t =>
        let max_time := now + 720
        let ne := t + minutes
        let ne := if ne > max_time then max_time else ne
        (true, some { v with runtime_expires_at := some ne })

/-! ## Continuous status monitor
(`VMMonitoringService.monitor_vm_status_continuous`,
`vm_monitoring_service.py` lines 216–263) -/

/-- One tracked record's status update in a cycle of
`monitor_vm_status_continuous`: `remote` is the outcome of
`get_vm_status(vm.proxmox_vm_id)` (`none` when the lookup raised — the
per-VM `except` skips the record).  The record is written only when the
reported string differs from `vm_status.value` and is `"running"` or
`"stopped"`. -/
def monitor_status_step (st : VMStatus) (remote : Option String) : VMStatus :=
  match remote with
  | none => st
  | some s =>
    if st.value ≠ s then
      if s = "running" then .RUNNING
      else if s = "stopped" then .STOPPED
      else st
    else st

/-- Outcomes of the remote steps `create_vm` drives, passed in explicitly.
`Except Unit Bool` models a call that can raise (caught by `create_vm`'s
outer `except`, which returns `None`) or return a boolean; plain `Bool`
models a call that catches its own exceptions and only returns a boolean. -/
structure RemoteEnv where
  /-- `ProxmoxService.create_empty_vm` (returns `True` or raises) -/
  create_empty : Except Unit Bool
  /-- `ProxmoxService.import_disk_ceph` (catches internally, returns a Bool) -/
  import_disk : Bool
  /-- `ProxmoxService.configure_vm` (returns `True` or raises) -/
  configure : Except Unit Bool
  /-- `ProxmoxService.start_vm` (returns `True` or raises) -/
  start : Except Unit Bool
  /-- `ProxmoxService.poll_vm_ready` (returns a Bool; `create_vm` ignores it) -/
  poll_ready : Bool
  /-- `AnsibleService.run_setup_vm` (catches internally, returns a Bool) -/
  run_setup : Bool
deriving Repr

/-- The admission query of `create_vm` (lines 443–451): does the user already
hold a VM record whose state is not `DELETED`? -/
def hasActiveVM (vms : List VMRec) (user_id : Nat) : Bool :=
  vms.any (fun v => v.user_id == user_id && v.vm_status ≠ .DELETED)

/-- Number of non-`DELETED` VM records held by `user_id`. -/
def activeCount (vms : List VMRec) (user_id : Nat) : Nat :=
  (vms.filter (fun v => v.user_id == user_id && v.vm_status ≠ .DELETED)).length

/-- The record `create_vm` inserts at reservation time (lines 471–479).
The primary key is database-assigned and never read by the embedded logic;
it is modelled as `0`. -/
def reservedVM (user_id vmid : Nat) (ip : String) (now : Int) : VMRec :=
  { id := 0
    user_id := user_id
    proxmox_vm_id := vmid
    vm_name := "user-vm-" ++ toString user_id ++ "-" ++ toString now
    vm_status := .CREATED
    ip_address := some ip
    node := ""
    runtime_expires_at := none
    last_active_at := none }

/-- Embedding of `VMService.create_vm`: the admission check, then the VMID
read `new_vmid = vmid_seq.next_id` (line 458).  That attribute does not
exist on `VMIDSequence`, so every execution past admission raises
`AttributeError`, which the function's outer `except Exception` (line 540)
catches, returning `None`; nothing was committed, so the database is
unchanged.  The text that follows line 458 in the source — IP lock,
reservation insert, remote pipeline with `FAILED`/`READY` commits — is
kept under the (unreachable) `some` branch as its line-by-line
translation.  Returns the Python result (`Some vm` or `None`) and the
final database state. -/
def create_vm (db : CreateDB) (user_id : Nat) (env : RemoteEnv) (now : Int) :
    Option VMRec × CreateDB :=
  -- 1. Walidacja (admission)
  if hasActiveVM db.vms user_id then (none, db)
  else
    -- 2. Alokacja VMID + IP (SELECT FOR UPDATE): `vmid_seq.next_id` raises
    match db.seq.next_id with
    | none =>
      -- AttributeError → outer `except` → return None; no commit happened
      (none, db)
    | some new_vmid =>
      -- dead code: `next_id` never yields a value.  Translation of the
      -- source text from line 459 on, as it would run if the read returned.
      match updateFirstFree markAllocated db.ips with
      | none =>
        -- `scalar_one()` raises; nothing was committed, the session rolls back
        (none, db)
      | some (r, ips') =>
        -- 3. Rezerwacja (INSERT + COMMIT)
        let vm := reservedVM user_id new_vmid r.ip now
        let base := db.vms
        let commit := fun (st : VMStatus) (expiry lastActive : Option Int) =>
          CreateDB.mk
            (base ++ [{ vm with vm_status := st, runtime_expires_at := expiry,
                                last_active_at := lastActive }])
            ⟨new_vmid + 1⟩ ips'
        let dbC := commit .CREATED none none
        -- 4. Create empty VM
        match env.create_empty with
        | .error _ => (none, dbC)
        | .ok ce =>
          if !ce then (none, commit .FAILED none none)
          else
          -- 5. Import qcow2 → Ceph RBD
          if !env.import_disk then (none, commit .FAILED none none)
          else
          -- 6. Configure VM
          match env.configure with
          | .error _ => (none, dbC)
          | .ok c =>
            if !c then (none, commit .FAILED none none)
            else
            -- 7. Start VM
            match env.start with
            | .error _ => (none, dbC)
            | .ok s =>
              if !s then (none, commit .FAILED none none)
              else
              -- 8. Poll ready (result ignored by the source)
              -- 9. Ansible provisioning
              if !env.run_setup then (none, commit .FAILED none none)
              else
                -- 10. Finalizacja
                let fin := { vm with
                  vm_status := .READY
                  runtime_expires_at := some (now + 720)
                  last_active_at := some now }
                (some fin, commit .READY (some (now + 720)) (some now))

/-! ## `VMService.reset_vm` (`vm_services.py` lines 604–672) -/

/-- Outcomes of the remote steps `reset_vm` drives. -/
structure ResetEnv where
  /-- `create_empty_vm`: awaited, return value ignored; only a raise matters -/
  create_empty : Except Unit Bool
  /-- `import_disk_ceph`: checked with `if not ...` -/
  import_disk : Bool
  /-- `configure_vm`: awaited, return value ignored -/
  configure : Except Unit Bool
  /-- `destroy_vm` on the old VMID: awaited, return value ignored -/
  destroy : Except Unit Bool
  /-- `run_setup_vm`: checked with `if not success` -/
  run_setup : Bool
deriving Repr

/-- The `reset_vm` error outcomes. -/
inductive ResetErr where
  /-- "'VMIDSequence' object has no attribute 'next_id'": raised at line 620,
  outside every `try` of the function, so it propagates (the route's
  generic handler turns it into an HTTP 500) -/
  | attributeError
  /-- HTTP 502, "Reset error: ..." — a proxmox step raised -/
  | resetError
  /-- HTTP 502, "Provisioning error" — Ansible failed -/
  | provisioningError
deriving DecidableEq, Repr

/-- Embedding of `VMService.reset_vm`: load the record, then mint a new VMID
with `new_vm_id = seq.next_id` (line 620).  That attribute does not exist
on `VMIDSequence`, and the read sits outside every `try` in the function,
so every call raises `AttributeError` before any remote call or record
update.  The remainder of the source text — rebuild on the same IP,
destroy the old remote VM, re-provision, then write the new
`proxmox_vm_id` with state `READY` and timer cleared — is kept under the
(unreachable) `some` branch as its line-by-line translation.  Returns the
result and the final sequence row. -/
def reset_vm (vm : VMRec) (seqRow : VMIDSequence) (env : ResetEnv) (now : Int) :
    Except ResetErr VMRec × VMIDSequence :=
  -- Alokacja nowego VMID: `seq.next_id` raises
  match seqRow.next_id with
  | none => (.error .attributeError, seqRow)
  | some new_vm_id =>
    -- dead code: `next_id` never yields a value
    let seq' : VMIDSequence := ⟨new_vm_id + 1⟩
    match env.create_empty with
    | .error _ => (.error .resetError, seq')
    | .ok _ =>
      if !env.import_disk then (.error .resetError, seq')
      else match env.configure with
      | .error _ => (.error .resetError, seq')
      | .ok _ =>
        match env.destroy with
        | .error _ => (.error .resetError, seq')
        | .ok _ =>
          if !env.run_setup then (.error .provisioningError, seq')
          else
            (.ok { vm with proxmox_vm_id := new_vm_id,
                           vm_status := .READY,
                           runtime_expires_at := none,
                           last_active_at := some now }, seq')

/-! ## `allocate_resources` (`vm_services.py` lines 840–915) -/

/-- Error outcomes of `allocate_resources` relevant past node selection. -/
inductive AllocErr where
  /-- HTTP 507, "Brak dostępnych adresów IP" (no free IP) -/
  | noFreeIP
deriving DecidableEq, Repr

/-- The row update `allocate_resources` performs on the locked free IP row:
`status = 'allocated'`, `user_id = None`. -/
def markAllocatedNoUser (r : IPRec) : IPRec :=
  { r with status := .ALLOCATED, user_id := none }

/-- Embedding of `allocate_resources`, from the VMID allocation on (steps 1–4 — node
selection and the Ceph health/space checks — are remote reads that mutate no
database state and have succeeded when this section runs).  Allocates and
commits the VMID; then, if no free IP exists, decrements the counter back,
commits, and raises 507; otherwise marks the IP row allocated and returns
`(vmid, ip, node)`.  Returns the Python outcome and the final DB state. -/
def allocate_resources (db : CreateDB) (selected_node : String) :
    Except AllocErr (Nat × String × String) × CreateDB :=
  -- 5. Alokuj VMID (FOR UPDATE NOWAIT; committed).  This function reads the
  -- column by its real name, `seq.next_vm_id`.
  let new_vm_id := db.seq.next_vm_id
  let db1 := { db with seq := VMIDSequence.mk (db.seq.next_vm_id + 1) }
  -- 6. Alokuj IP
  match updateFirstFree markAllocatedNoUser db1.ips with
  | none =>
    -- seq.next_vm_id -= 1; commit; raise 507
    (.error .noFreeIP, { db1 with seq := VMIDSequence.mk (db1.seq.next_vm_id - 1) })
  | some (r, ips') =>
    (.ok (new_vm_id, r.ip, selected_node), { db1 with ips := ips' })

/-! ## `ProxmoxService._proxmox_request` (`vm_services.py` lines 45–109) -/

/-- What one attempt of the HTTP request observes. -/
inductive ReqOutcome where
  /-- `requests.*` raised (network failure / timeout) -/
  | netError
  /-- a response with this status code came back -/
  | resp (code : Nat)
deriving DecidableEq, Repr

/-- How `_proxmox_request` can fail. -/
inductive ReqErr where
  /-- HTTP 502, "Proxmox error: {code}" -/
  | badGateway502
  /-- HTTP 503, "Proxmox service unavailable" -/
  | unavailable503
deriving DecidableEq, Repr

/-- The body of `_proxmox_request`'s `for attempt in range(retry_count)` loop.
`outcomes` lists what each successive attempt observes; `attempt` is the
loop index.  Alongside the result we collect the backoff sleeps performed
(`2 ** attempt` seconds), to reason about the retry schedule.

Note the control flow of the source: the `raise HTTPException(502)` for a
definitive (non-retryable-looking) response is *inside* the `try`, and the
handler `except (asyncio.TimeoutError, Exception)` catches every
`Exception` — `HTTPException` included — so that raise is swallowed and
retried like a network failure, and the final failure is always the 503. -/
def proxmox_request_loop (retry_count : Nat) :
    List ReqOutcome → Nat → Except ReqErr Unit × List Nat
  | [], _ =>
    -- the loop ran out of iterations; unreachable for traces of length
    -- `retry_count` (the last attempt always returns or raises)
    (.error .unavailable503, [])
  | o :: rest, attempt =>
    match o with
    | .resp code =>
      if code = 200 ∨ code = 201 then (.ok (), [])
      else if code ≥ 500 ∧ attempt < retry_count - 1 then
        -- "Server error - retry"
        let p := proxmox_request_loop retry_count rest (attempt + 1)
        (p.1, 2 ^ attempt :: p.2)
      else
        -- `raise HTTPException(502)` — caught by the generic `except` below:
        if attempt < retry_count - 1 then
          let p := proxmox_request_loop retry_count rest (attempt + 1)
          (p.1, 2 ^ attempt :: p.2)
        else (.error .unavailable503, [])
    | .netError =>
      if attempt < retry_count - 1 then
        let p := proxmox_request_loop retry_count rest (attempt + 1)
        (p.1, 2 ^ attempt :: p.2)
      else (.error .unavailable503, [])

/-- Embedding of `_proxmox_request` with its default `retry_count = 3`. -/
def proxmox_request (outcomes : List ReqOutcome) : Except ReqErr Unit × List Nat :=
  proxmox_request_loop 3 outcomes 0

/-! ## Gateway verbs and task polling -/

/-- One poll of a Proxmox task's status endpoint, as seen by
`_wait_for_proxmox_task` (`vm_services.py` lines 1191–1215). -/
inductive TaskPoll where
  /-- the poll returned `{'status': st, 'exitstatus': ex}` -/
  | stat (st ex : String)
  /-- the status GET raised an exception with this message -/
  | pollErr (msg : String)
deriving DecidableEq, Repr

/-- Character-list prefix test (used to model Python's `in` on strings). -/
def charsPrefix : List Char → List Char → Bool
  | [], _ => true
  | _ :: _, [] => false
  | a :: as, b :: bs => a == b && charsPrefix as bs

/-- Character-list infix test (Python's `needle in haystack`). -/
def charsInfix (needle : List Char) : List Char → Bool
  | [] => needle.isEmpty
  | c :: cs => charsPrefix needle (c :: cs) || charsInfix needle cs

/-- The check `"not found" in str(e)` of `_wait_for_proxmox_task`'s `except`
handler: substring containment. -/
def containsNotFound (msg : String) : Bool :=
  charsInfix "not found".toList msg.toList

/-- Embedding of `_wait_for_proxmox_task` over the successive poll results
(the list length plays the role of the timeout bound; an exhausted list is
the `TimeoutError`).  A `status == 'stopped'` poll returns `True` on
`exitstatus == 'OK'`; otherwise it raises
`Exception("Task failed: {exitstatus}")` — but that raise sits inside the
same `try`, so the function's own `except Exception` catches it and, when
the message contains `"not found"`, returns `True`; otherwise the
exception is re-raised.  A poll-GET exception is handled by the same
`except`: message containing `"not found"` means already-completed
(`return True`), anything else propagates. -/
def wait_for_proxmox_task : List TaskPoll → Except String Bool
  | [] => .error "timeout"
  | p :: rest =>
    match p with
    | .stat st ex =>
      if st = "stopped" then
        if ex = "OK" then .ok true
        else
          -- raise → caught by the surrounding `except` → "not found" check
          if containsNotFound ("Task failed: " ++ ex) then .ok true
          else .error ("Task failed: " ++ ex)
      else wait_for_proxmox_task rest
    | .pollErr msg =>
      if containsNotFound msg then .ok true else .error msg

/-- Embedding of `ProxmoxService.start_vm` (`vm_services.py` lines 210–215): POST the start
request and return `True`.  `task_polls` is the hypervisor-side history of
the enqueued task — the source never reads it (it polls nothing), which is
exactly what the theorems below are about. -/
def proxmox_start_vm (enqueue : Except ReqErr Unit) (task_polls : List TaskPoll) :
    Except ReqErr Bool :=
  match enqueue with
  | .error e => .error e
  | .ok _ => .ok true

/-- Embedding of `ProxmoxService.shutdown_vm` (lines 217–222): same shape as `start_vm`. -/
def proxmox_shutdown_vm (enqueue : Except ReqErr Unit) (task_polls : List TaskPoll) :
    Except ReqErr Bool :=
  match enqueue with
  | .error e => .error e
  | .ok _ => .ok true

/-- Embedding of `ProxmoxService.reboot_vm` (lines 224–229): same shape as `start_vm`. -/
def proxmox_reboot_vm (enqueue : Except ReqErr Unit) (task_polls : List TaskPoll) :
    Except ReqErr Bool :=
  match enqueue with
  | .error e => .error e
  | .ok _ => .ok true

/-- Embedding of `ProxmoxService.destroy_vm` (lines 231–252): best-effort shutdown (its
error is caught and logged), then the DELETE request, then an SSH RBD
cleanup whose boolean result is ignored; returns `True` once the DELETE
enqueue succeeded, consulting no task state. -/
def proxmox_destroy_vm (shutdown_enqueue : Except ReqErr Unit)
    (delete_enqueue : Except ReqErr Unit) (rbd_cleanup : Bool)
    (task_polls : List TaskPoll) : Except ReqErr Bool :=
  match delete_enqueue with
  | .error e => .error e
  | .ok _ => .ok true

/-- The clone path (`create_vm_in_proxmox`, lines 1006–1019): enqueue the
clone and then `await _wait_for_proxmox_task(...)`; success is reported
only after the task wait returns. -/
def clone_and_wait (enqueue : Except ReqErr String) (task_polls : List TaskPoll) :
    Except String Bool :=
  match enqueue with
  | .error _ => .error "enqueue failed"
  | .ok _ => wait_for_proxmox_task task_polls

/-! ## Migration monitor (`VMMonitoringService.monitor_vm_migrations`,
`vm_monitoring_service.py` lines 57–135) -/

/-- The fields `get_all_nodes_load` reads from a successful
`proxmox.nodes(name).status.get()`, with the `.get(...)` defaults already
applied (`status` defaults to `"unknown"`, `cpu` to `0`, `memory` to `0`,
`maxmemory` to `1`).  Python floats are modelled as exact rationals. -/
structure NodePoll where
  status : String
  cpu : ℚ
  memory : ℚ
  maxmemory : ℚ
deriving DecidableEq, Repr

/-- One entry of the list `get_all_nodes_load` builds. -/
structure NodeStat where
  node : String
  status : String
  cpu_percent : ℚ
  memory_percent : ℚ
deriving DecidableEq, Repr

/-- The sort key of `get_all_nodes_load`: `(cpu_percent + memory_percent) / 2`. -/
def nodeAvg (s : NodeStat) : ℚ :=
  (s.cpu_percent + s.memory_percent) / 2

/-- The per-node entry: on a successful poll, compute the percentages; on a
failed poll (`except` branch, lines 126–137), the node is *kept* in the
list, marked `"offline"` with `cpu_percent = 100` and
`memory_percent = 100`. -/
def pollToStat (name : String) : Option NodePoll → NodeStat
  | some p =>
    { node := name
      status := p.status
      cpu_percent := p.cpu * 100
      memory_percent :=
        if p.maxmemory > 0 then p.memory / p.maxmemory * 100 else 0 }
  | none =>
    { node := name, status := "offline", cpu_percent := 100, memory_percent := 100 }

/-- The ordering `sorted(..., key=k)` uses: compare the keys. -/
def byKey (k : NodeStat → ℚ) : NodeStat → NodeStat → Prop :=
  fun a b => k a ≤ k b

instance (k : NodeStat → ℚ) : DecidableRel (byKey k) :=
  fun a b => inferInstanceAs (Decidable (k a ≤ k b))

instance (k : NodeStat → ℚ) : IsTotal NodeStat (byKey k) :=
  ⟨fun a b => le_total (k a) (k b)⟩

instance (k : NodeStat → ℚ) : IsTrans NodeStat (byKey k) :=
  ⟨fun _ _ _ hab hbc => le_trans hab hbc⟩

/-- Python's `sorted` is a stable sort; a stable sort's output is uniquely
determined by the key, so `List.insertionSort` (which is stable for this
insertion rule and fold direction) produces the same list. -/
def pySorted (k : NodeStat → ℚ) (l : List NodeStat) : List NodeStat :=
  List.insertionSort (byKey k) l

/-- Embedding of `LoadBalancingService.get_all_nodes_load` (lines 84–146): poll every
configured node (`polls` pairs each node name with its poll outcome,
`none` = the poll raised), build the stats entries, and return them sorted
by `(cpu_percent + memory_percent) / 2`. -/
def get_all_nodes_load (polls : List (String × Option NodePoll)) : List NodeStat :=
  pySorted nodeAvg (polls.map (fun p => pollToStat p.1 p.2))

/-- The threshold filter of `select_best_node` (lines 41–46). -/
def nodeQualifies (cpu_threshold memory_threshold : ℚ) (n : NodeStat) : Bool :=
  decide (n.cpu_percent < cpu_threshold) &&
  decide (n.memory_percent < memory_threshold) &&
  (n.status == "online")

/-- The candidate list `select_best_node` picks from (lines 41–58): the
threshold-qualified nodes of the (already sorted) stats; when none
qualifies, the *online* nodes re-sorted by `cpu_percent + memory_percent`. -/
def availableNodes (cpu_threshold memory_threshold : ℚ)
    (nodes_stats : List NodeStat) : List NodeStat :=
  let available := nodes_stats.filter (nodeQualifies cpu_threshold memory_threshold)
  if available.isEmpty then
    pySorted (fun x => x.cpu_percent + x.memory_percent)
      (nodes_stats.filter (fun n => n.status == "online"))
  else available

/-- Embedding of `LoadBalancingService.select_best_node` (lines 22–82): with load
balancing disabled, or with an empty stats list, return the primary node;
otherwise take the first of `availableNodes`; if that list is empty, raise
HTTP 503 ("No available nodes in cluster"). -/
def select_best_node (enabled : Bool) (primary : String)
    (polls : List (String × Option NodePoll))
    (cpu_threshold memory_threshold : ℚ) : Except Unit String :=
  if !enabled then .ok primary
  else
    let nodes_stats := get_all_nodes_load polls
    if nodes_stats.isEmpty then .ok primary
    else
      match availableNodes cpu_threshold memory_threshold nodes_stats with
      | [] => .error ()
      | best :: _ => .ok best.node

/-! ## Concrete states used by witnesses and counterexamples -/

/-- A running VM whose expiry (`T = 715`) is 5 minutes short of the
`now + 12h` cap at `now = 0`. -/
def vmNearCap : VMRec :=
  ⟨1, 7, 200, "user-vm-7", .RUNNING, some "192.168.100.10", "pve", some 715, none⟩

/-- A database in which user 7 already holds a `RUNNING` (non-deleted) VM. -/
def dbUserBusy : CreateDB :=
  ⟨[vmNearCap], ⟨205⟩, [⟨"192.168.100.11", .FREE, none⟩]⟩

/-- A database whose IP pool holds no `Free` row. -/
def dbNoFreeIP : CreateDB :=
  ⟨[], ⟨205⟩, [⟨"192.168.100.10", .ALLOCATED, some 3⟩, ⟨"192.168.100.11", .RESERVED, none⟩]⟩

/-- A remote environment in which every creation step succeeds. -/
def createAllOk : RemoteEnv :=
  ⟨.ok true, true, .ok true, .ok true, true, true⟩

/-- Node polls with two online nodes, `pve` at 50% CPU / 50% memory and
`pve2` at 25% CPU / 30% memory. -/
def pollsTwoOnline : List (String × Option NodePoll) :=
  [("pve", some ⟨"online", 1/2, 50, 100⟩), ("pve2", some ⟨"online", 1/4, 30, 100⟩)]

/-! # Theorems -/

/-- C4.  Evaluating `_proxmox_request` at the failing input — a definitive
4xx response on every attempt: the 502 raised for the 4xx is caught by the
function's own generic `except` handler, so the 4xx is retried after 1s
and again after 2s, and the call finally fails with the 503
hypervisor-unavailable error instead of propagating the 502 immediately.
The second conjunct shows the retry/backoff schedule the claim describes
working as stated for transient 5xx responses, and the third that
exhausted retries end in the 503. -/
theorem proxmox_request_4xx_retried_to_503 :
    proxmox_request [.resp 404, .resp 404, .resp 404] =
      (.error .unavailable503, [1, 2]) ∧
    proxmox_request [.resp 500, .resp 500, .resp 200] = (.ok (), [1, 2]) ∧
    proxmox_request [.netError, .netError, .netError] =
      (.error .unavailable503, [1, 2]) := by
  refine ⟨rfl, rfl, rfl⟩

/-- C5 counterexample.  At `now = 0`, a running VM with expiry `T = 715`
extended by the valid amount `m = 10` (so `T + m = 725 > 720 = now + 12h`)
is *rejected* by `extend_time` with the 400 "Cannot extend beyond 12 hours
limit" error; the expiry is not set to `now + 12h` (or to anything): the
claim's "capped at exactly now+12h" does not hold for `extend_time`. -/
theorem extend_time_rejects_instead_of_capping :
    extend_time vmNearCap 10 0 = .error .capExceeded ∧
    (5 : Int) ≤ 10 ∧ (10 : Int) ≤ 60 ∧
    vmNearCap.vm_status = .RUNNING ∧
    vmNearCap.runtime_expires_at = some 715 ∧
    (715 : Int) + 10 > 0 + 720 := by
  refine ⟨rfl, by norm_num, by norm_num, rfl, rfl, by norm_num⟩

/-- C5 amended.  For a running VM with expiry `T` and a valid extension
`5 ≤ m ≤ 60`: `extend_time` sets the new expiry to `T + m` when that is
within `now + 12h`, and *rejects* the request (leaving the record
unchanged) when `T + m` would exceed `now + 12h`; the capping-to-exactly-
`now + 12h` behaviour belongs to the unwired draft `extend_runtime`, which
clamps the new expiry to `now + 12h` whenever it would exceed it. -/
theorem extend_time_monotonic_or_rejects (vm : VMRec) (m now t : Int)
    (h5 : 5 ≤ m) (h60 : m ≤ 60) (hrun : vm.vm_status = .RUNNING)
    (hexp : vm.runtime_expires_at = some t) :
    (t + m ≤ now + 720 →
      extend_time vm m now =
        .ok { vm with runtime_expires_at := some (t + m),
                      last_active_at := some now }) ∧
    (t + m > now + 720 → extend_time vm m now = .error .capExceeded) ∧
    extend_runtime (some vm) m now =
      (true, some { vm with
        runtime_expires_at := some (if t + m > now + 720 then now + 720 else t + m) }) := by
  have hnot : ¬(m < 5 ∨ m > 60) := by omega
  refine ⟨?_, ?_, ?_⟩
  · intro hle
    simp only [extend_time, if_neg hnot, hrun, hexp]
    simp only [ne_eq, not_true_eq_false, if_false]
    rw [if_neg (by omega)]
  · intro hgt
    simp only [extend_time, if_neg hnot, hrun, hexp]
    simp only [ne_eq, not_true_eq_false, if_false]
    rw [if_pos (by omega)]
  · simp only [extend_runtime, hrun, hexp]
    simp only [ne_eq, not_true_eq_false, if_false]

/-- C5 witness for the amended theorem: at `now = 0`, extending `vmNearCap`
(expiry 715) by 5 minutes lands exactly on the cap and succeeds with
expiry 720, while extending by 10 is rejected, and `extend_runtime` with
10 clamps to 720. -/
theorem extend_time_monotonic_or_rejects_witness :
    (extend_time vmNearCap 5 0 =
      .ok { vmNearCap with runtime_expires_at := some 720,
                           last_active_at := some 0 }) ∧
    extend_time vmNearCap 10 0 = .error .capExceeded ∧
    extend_runtime (some vmNearCap) 10 0 =
      (true, some { vmNearCap with runtime_expires_at := some 720 }) := by
  have h5 := extend_time_monotonic_or_rejects vmNearCap 5 0 715
    (by norm_num) (by norm_num) rfl rfl
  have h10 := extend_time_monotonic_or_rejects vmNearCap 10 0 715
    (by norm_num) (by norm_num) rfl rfl
  refine ⟨?_, h10.2.1 (by norm_num), ?_⟩
  · have := h5.1 (by norm_num)
    simpa using this
  · have := h10.2.2
    simpa using this

/-- C10.  One step of the continuous status monitor writes only `RUNNING` or
`STOPPED`: the updated state is the old one or one of those two; any
remote status other than `"running"`/`"stopped"`, and any failed lookup,
leaves the record unchanged; in particular the monitor never transitions a
record into `FAILED`, `DELETED`, `CREATED`, `PROVISIONING` or `READY`. -/
theorem monitor_status_writes_only_running_stopped (st : VMStatus)
    (remote : Option String) :
    (monitor_status_step st remote = st ∨
     monitor_status_step st remote = .RUNNING ∨
     monitor_status_step st remote = .STOPPED) ∧
    (∀ s, remote = some s → s ≠ "running" → s ≠ "stopped" →
      monitor_status_step st remote = st) ∧
    (remote = none → monitor_status_step st remote = st) ∧
    (monitor_status_step st remote ≠ st →
      monitor_status_step st remote = .RUNNING ∨
      monitor_status_step st remote = .STOPPED) := by
  rcases remote with _ | s
  · simp [monitor_status_step]
  · refine ⟨?_, ?_, by simp, ?_⟩
    · simp only [monitor_status_step]
      split_ifs <;> simp
    · intro s' hs' hr hst
      injection hs' with h
      subst h
      simp only [monitor_status_step]
      split_ifs <;> simp_all
    · intro hne
      simp only [monitor_status_step] at hne ⊢
      split_ifs at hne ⊢ <;> simp_all

/-- C10 witness: a `READY` record whose remote status reads `"paused"` is left
unchanged by the monitor step. -/
theorem monitor_status_writes_only_running_stopped_witness :
    monitor_status_step .READY (some "paused") = .READY :=
  (monitor_status_writes_only_running_stopped .READY (some "paused")).2.1
    "paused" rfl (by decide) (by decide)

/-- C3 counterexample.  `ProxmoxService.start_vm` reports success (`ok true`)
on a successful enqueue request even though the enqueued task's poll
history contains no successful terminal state (the task is still
`running` — a trace on which even `_wait_for_proxmox_task` would time out
rather than succeed): the HTTP 200 on the enqueue alone *is* treated as
success. -/
theorem start_vm_success_without_task_confirmation :
    proxmox_start_vm (.ok ()) [TaskPoll.stat "running" ""] = .ok true ∧
    wait_for_proxmox_task [TaskPoll.stat "running" ""] = .error "timeout" := by
  exact ⟨rfl, rfl⟩

/-- C3 amended.  Of the asynchronous Gateway verbs, only the clone path
(`create_vm_in_proxmox` via `_wait_for_proxmox_task`) consults the task:
it reports success only when some poll shows the terminal `stopped`/`OK`
state, or a `stopped` poll whose failing exitstatus message contains
"not found" (the function's own "Task failed" raise is caught by its own
`except` and matched for "not found"), or a poll error whose message
contains "not found" (treated as already finished).  `start_vm`,
`shutdown_vm`, `reboot_vm` and `destroy_vm` instead report success
exactly when the enqueue request succeeds, regardless of any task
state. -/
theorem gateway_task_confirmation_amended (enq : Except ReqErr Unit)
    (polls : List TaskPoll) :
    (proxmox_start_vm enq polls = .ok true ↔ enq = .ok ()) ∧
    (proxmox_shutdown_vm enq polls = .ok true ↔ enq = .ok ()) ∧
    (proxmox_reboot_vm enq polls = .ok true ↔ enq = .ok ()) ∧
    (∀ senq rbd, proxmox_destroy_vm senq enq rbd polls = .ok true ↔
      enq = .ok ()) ∧
    (wait_for_proxmox_task polls = .ok true →
      ∃ p ∈ polls, p = TaskPoll.stat "stopped" "OK" ∨
        (∃ ex, p = TaskPoll.stat "stopped" ex ∧
          containsNotFound ("Task failed: " ++ ex) = true) ∨
        (∃ msg, p = TaskPoll.pollErr msg ∧ containsNotFound msg = true)) := by
  refine ⟨?_, ?_, ?_, fun senq rbd => ?_, ?_⟩
  · cases enq <;> simp [proxmox_start_vm]
  · cases enq <;> simp [proxmox_shutdown_vm]
  · cases enq <;> simp [proxmox_reboot_vm]
  · cases enq <;> simp [proxmox_destroy_vm]
  · induction polls with
    | nil => intro h; exact absurd h (by simp [wait_for_proxmox_task])
    | cons p rest ih =>
      intro h
      cases p with
      | stat st ex =>
        by_cases hst : st = "stopped"
        · subst hst
          by_cases hex : ex = "OK"
          · subst hex
            exact ⟨_, List.mem_cons_self _ _, Or.inl rfl⟩
          · by_cases hnf : containsNotFound ("Task failed: " ++ ex) = true
            · exact ⟨_, List.mem_cons_self _ _, Or.inr (Or.inl ⟨ex, rfl, hnf⟩)⟩
            · simp [wait_for_proxmox_task, hex, hnf] at h
        · simp only [wait_for_proxmox_task, if_neg hst] at h
          obtain ⟨q, hq, hq'⟩ := ih h
          exact ⟨q, List.mem_cons_of_mem _ hq, hq'⟩
      | pollErr msg =>
        by_cases hnf : containsNotFound msg = true
        · exact ⟨_, List.mem_cons_self _ _, Or.inr (Or.inr ⟨msg, rfl, hnf⟩)⟩
        · simp [wait_for_proxmox_task, hnf] at h

/-- C3 witness for the amended theorem: with a successful enqueue and an
empty poll history, `start_vm` reports success, and a task wait over a
trace ending in `stopped`/`OK` yields a confirming poll in the trace. -/
theorem gateway_task_confirmation_amended_witness :
    proxmox_start_vm (.ok ()) [] = .ok true ∧
    ∃ p ∈ [TaskPoll.stat "running" "", TaskPoll.stat "stopped" "OK"],
      p = TaskPoll.stat "stopped" "OK" ∨
      (∃ ex, p = TaskPoll.stat "stopped" ex ∧
        containsNotFound ("Task failed: " ++ ex) = true) ∨
      (∃ msg, p = TaskPoll.pollErr msg ∧ containsNotFound msg = true) := by
  constructor
  · exact (gateway_task_confirmation_amended (.ok ()) []).1.mpr rfl
  · exact (gateway_task_confirmation_amended (.ok ())
      [TaskPoll.stat "running" "", TaskPoll.stat "stopped" "OK"]).2.2.2.2 rfl

/-- C6.  Evaluating `reset_vm` at the failing input — which is *every*
input: the VMID mint reads `seq.next_id`, an attribute `VMIDSequence`
does not define, so every reset raises `AttributeError` (outside every
`try` of the function) before any remote call or record update and no
reset ever succeeds.  The claim's "newly minted identifier, same IP" is
the function's own documented intent ("Nowy VMID / Stare IP"), which the
attribute slip makes unreachable. -/
theorem reset_vm_always_errors (vm : VMRec) (seqRow : VMIDSequence)
    (env : ResetEnv) (now : Int) :
    VMIDSequence.next_id seqRow = none ∧
    reset_vm vm seqRow env now = (.error .attributeError, seqRow) :=
  ⟨rfl, rfl⟩

/-- Helper: when no row of the pool is `Free`, `updateFirstFree` finds
nothing. -/
theorem updateFirstFree_eq_none (f : IPRec → IPRec) (l : List IPRec)
    (h : ∀ r ∈ l, r.status ≠ .FREE) : updateFirstFree f l = none := by
  induction l with
  | nil => rfl
  | cons x xs ih =>
    simp only [updateFirstFree, if_neg (h x (List.mem_cons_self _ _)),
      ih (fun r hr => h r (List.mem_cons_of_mem _ hr))]

/-- C9.  When the IP pool holds no `Free` row, `allocate_resources` fails
with the 507 resource-exhausted error after decrementing the VMID counter
back, leaving both the counter and the IP table exactly as before the
call. -/
theorem allocate_resources_ip_exhaustion_restores_seq (db : CreateDB)
    (selected_node : String)
    (hno : ∀ r ∈ db.ips, r.status ≠ .FREE) :
    (allocate_resources db selected_node).1 = .error .noFreeIP ∧
    (allocate_resources db selected_node).2.seq = db.seq ∧
    (allocate_resources db selected_node).2.ips = db.ips := by
  simp [allocate_resources, updateFirstFree_eq_none _ _ hno]

/-- C9 witness: on `dbNoFreeIP` (counter 205, no free rows) the allocation
fails with the 507 error and the final counter is again 205 with the IP
table untouched. -/
theorem allocate_resources_ip_exhaustion_restores_seq_witness :
    (allocate_resources dbNoFreeIP "pve").1 = .error .noFreeIP ∧
    (allocate_resources dbNoFreeIP "pve").2.seq = VMIDSequence.mk 205 ∧
    (allocate_resources dbNoFreeIP "pve").2.ips = dbNoFreeIP.ips :=
  allocate_resources_ip_exhaustion_restores_seq dbNoFreeIP "pve" (by decide)

/-- Helper: `create_vm` always returns `None` with the database unchanged —
the admission branch rejects, and every post-admission execution dies on
the `vmid_seq.next_id` read (caught by the outer `except`) before
anything is committed. -/
theorem create_vm_eq_none (db : CreateDB) (u : Nat) (env : RemoteEnv)
    (now : Int) : create_vm db u env now = (none, db) := by
  by_cases h : hasActiveVM db.vms u <;>
    simp [create_vm, h, VMIDSequence.next_id]

/-- C2.  The admission check of `create_vm`: a user already holding a
non-deleted VM record is rejected (`None` — mapped to an HTTP 400
admission error by the route) with the database untouched, and `create_vm`
preserves the invariant that a user holds at most one non-deleted VM
record.  (The preservation is in fact trivial: every post-admission
execution raises `AttributeError` at the `next_id` read and returns `None`
with nothing committed, so `create_vm` never inserts a record at all.) -/
theorem create_vm_admission_single_active (db : CreateDB) (u : Nat)
    (env : RemoteEnv) (now : Int) :
    (hasActiveVM db.vms u = true → create_vm db u env now = (none, db)) ∧
    (activeCount db.vms u ≤ 1 →
      activeCount (create_vm db u env now).2.vms u ≤ 1) := by
  refine ⟨fun _ => create_vm_eq_none db u env now, fun hle => ?_⟩
  rw [create_vm_eq_none db u env now]
  exact hle

/-- C2 witness: user 7 of `dbUserBusy` already holds a running VM, so
`create_vm` returns `None` with the database unchanged, and the
at-most-one invariant is preserved. -/
theorem create_vm_admission_single_active_witness :
    create_vm dbUserBusy 7 createAllOk 0 = (none, dbUserBusy) ∧
    activeCount (create_vm dbUserBusy 7 createAllOk 0).2.vms 7 ≤ 1 :=
  ⟨(create_vm_admission_single_active dbUserBusy 7 createAllOk 0).1 (by decide),
   (create_vm_admission_single_active dbUserBusy 7 createAllOk 0).2 (by decide)⟩

/-- C1.  Evaluating `create_vm` at the failing input — which is *every* call
that passes admission: the VMIDSequence section reads `vmid_seq.next_id`,
an attribute the model does not define, so the section raises
`AttributeError` on its first line and never issues a VMID nor reaches
the `Free`-IP lock; the outer `except` returns `None` with nothing
committed.  Hence `create_vm` never allocates anything at all: the
lock-protected unique allocation the claim describes (and which the
sibling `allocate_resources` implements with the correct `next_vm_id`
attribute) never executes inside `create_vm`. -/
theorem create_vm_allocation_never_executes (db : CreateDB) (user_id : Nat)
    (env : RemoteEnv) (now : Int) :
    VMIDSequence.next_id db.seq = none ∧
    create_vm db user_id env now = (none, db) := by
  refine ⟨rfl, ?_⟩
  by_cases h : hasActiveVM db.vms user_id <;>
    simp [create_vm, h, VMIDSequence.next_id]

/-- C8 counterexample.  When every node's status poll fails, every entry is
marked offline (at 100/100), the threshold filter and the online-only
fallback are both empty, and `select_best_node` raises the 503 — it does
*not* return the lowest-average node. -/
theorem select_best_node_all_offline_errors :
    select_best_node true "pve" [("pve", none), ("pve2", none)] 80 80 =
      .error () ∧
    get_all_nodes_load [("pve", none), ("pve2", none)] =
      [⟨"pve", "offline", 100, 100⟩, ⟨"pve2", "offline", 100, 100⟩] := by
  constructor
  · simp [select_best_node, get_all_nodes_load, pySorted, List.insertionSort,
      List.orderedInsert, availableNodes, nodeQualifies, pollToStat, byKey,
      nodeAvg]
  · simp [get_all_nodes_load, pySorted, List.insertionSort, List.orderedInsert,
      pollToStat, byKey, nodeAvg]

/-- Helper: when some stat qualifies, `availableNodes` starts with a
qualifying stat of minimal average. -/
theorem availableNodes_qualified (cT mT : ℚ) (stats : List NodeStat)
    (hs : List.Sorted (byKey nodeAvg) stats)
    (s0 : NodeStat) (hs0 : s0 ∈ stats) (hq0 : nodeQualifies cT mT s0 = true) :
    ∃ best rest, availableNodes cT mT stats = best :: rest ∧
      best ∈ stats ∧ nodeQualifies cT mT best = true ∧
      ∀ t ∈ stats, nodeQualifies cT mT t = true → nodeAvg best ≤ nodeAvg t := by
  have hmem : s0 ∈ stats.filter (nodeQualifies cT mT) :=
    List.mem_filter.mpr ⟨hs0, hq0⟩
  have hne : stats.filter (nodeQualifies cT mT) ≠ [] := List.ne_nil_of_mem hmem
  have hie : (stats.filter (nodeQualifies cT mT)).isEmpty = false := by
    cases hc : stats.filter (nodeQualifies cT mT) with
    | nil => exact absurd hc hne
    | cons x xs => rfl
  simp only [availableNodes, hie, if_false, Bool.false_eq_true]
  cases hfl : stats.filter (nodeQualifies cT mT) with
  | nil => exact absurd hfl hne
  | cons best rest =>
    have hbm := hfl ▸ List.mem_cons_self best rest
    refine ⟨best, rest, rfl, (List.mem_filter.mp hbm).1,
      (List.mem_filter.mp hbm).2, ?_⟩
    intro t ht hqt
    have htf : t ∈ stats.filter (nodeQualifies cT mT) :=
      List.mem_filter.mpr ⟨ht, hqt⟩
    rw [hfl] at htf
    have hsf : List.Sorted (byKey nodeAvg) (best :: rest) := by
      rw [← hfl]
      exact hs.sublist (List.filter_sublist _)
    rcases List.mem_cons.mp htf with rfl | ht'
    · exact le_refl _
    · exact List.rel_of_sorted_cons hsf t ht'

/-- Helper: when no stat qualifies but some is online, `availableNodes`
starts with an online stat of minimal cpu+memory sum. -/
theorem availableNodes_degraded (cT mT : ℚ) (stats : List NodeStat)
    (hq : ∀ s ∈ stats, nodeQualifies cT mT s = false)
    (s0 : NodeStat) (hs0 : s0 ∈ stats) (hon0 : s0.status = "online") :
    ∃ best rest, availableNodes cT mT stats = best :: rest ∧
      best ∈ stats ∧ best.status = "online" ∧
      ∀ t ∈ stats, t.status = "online" →
        best.cpu_percent + best.memory_percent ≤
          t.cpu_percent + t.memory_percent := by
  have hfe : stats.filter (nodeQualifies cT mT) = [] := by
    rw [List.filter_eq_nil_iff]
    intro s hsm
    simp [hq s hsm]
  have hm : s0 ∈ stats.filter (fun n => n.status == "online") :=
    List.mem_filter.mpr ⟨hs0, by simp [hon0]⟩
  have hm' : s0 ∈ pySorted (fun x => x.cpu_percent + x.memory_percent)
      (stats.filter (fun n => n.status == "online")) := by
    simpa [pySorted, List.mem_insertionSort] using hm
  simp only [availableNodes, hfe, List.isEmpty_nil, if_true]
  cases hps : pySorted (fun x => x.cpu_percent + x.memory_percent)
      (stats.filter (fun n => n.status == "online")) with
  | nil => rw [hps] at hm'; simp at hm'
  | cons best rest =>
    have hbm : best ∈ stats.filter (fun n => n.status == "online") := by
      have := hps ▸ List.mem_cons_self best rest
      simpa [pySorted, List.mem_insertionSort] using this
    refine ⟨best, rest, rfl, (List.mem_filter.mp hbm).1,
      by simpa using (List.mem_filter.mp hbm).2, ?_⟩
    intro t ht hont
    have htf : t ∈ stats.filter (fun n => n.status == "online") :=
      List.mem_filter.mpr ⟨ht, by simp [hont]⟩
    have hts : t ∈ pySorted (fun x => x.cpu_percent + x.memory_percent)
        (stats.filter (fun n => n.status == "online")) := by
      simpa [pySorted, List.mem_insertionSort] using htf
    rw [hps] at hts
    have hsf : List.Sorted (byKey fun x => x.cpu_percent + x.memory_percent)
        (best :: rest) := by
      rw [← hps]
      exact List.sorted_insertionSort _ _
    rcases List.mem_cons.mp hts with rfl | ht'
    · exact le_refl _
    · exact List.rel_of_sorted_cons hsf t ht'

/-- C8 amended.  Node selection with load balancing enabled: a node whose
status poll fails is kept in the stats as offline with 100% CPU and 100%
memory (first conjunct), and therefore can never be selected; when some
online node is below both thresholds, the node returned qualifies and has
the minimal `(CPU% + memory%) / 2` among all qualifying nodes; when no
node qualifies but some node is online, the returned node is online with
the minimal average among online nodes (graceful degradation); when *no*
node is online at all, the call fails with the 503 error rather than
returning a node. -/
theorem select_best_node_thresholds_online_amended (primary : String)
    (polls : List (String × Option NodePoll)) (cT mT : ℚ) :
    (∀ name, pollToStat name none = ⟨name, "offline", 100, 100⟩) ∧
    (∀ s0 ∈ polls.map (fun p => pollToStat p.1 p.2),
      nodeQualifies cT mT s0 = true →
      ∃ best, select_best_node true primary polls cT mT = .ok best.node ∧
        best ∈ polls.map (fun p => pollToStat p.1 p.2) ∧
        nodeQualifies cT mT best = true ∧
        ∀ t ∈ polls.map (fun p => pollToStat p.1 p.2),
          nodeQualifies cT mT t = true → nodeAvg best ≤ nodeAvg t) ∧
    ((∀ s ∈ polls.map (fun p => pollToStat p.1 p.2),
        nodeQualifies cT mT s = false) →
      ∀ s0 ∈ polls.map (fun p => pollToStat p.1 p.2), s0.status = "online" →
      ∃ best, select_best_node true primary polls cT mT = .ok best.node ∧
        best ∈ polls.map (fun p => pollToStat p.1 p.2) ∧
        best.status = "online" ∧
        ∀ t ∈ polls.map (fun p => pollToStat p.1 p.2), t.status = "online" →
          nodeAvg best ≤ nodeAvg t) ∧
    ((∀ s ∈ polls.map (fun p => pollToStat p.1 p.2), s.status ≠ "online") →
      polls ≠ [] →
      select_best_node true primary polls cT mT = .error ()) := by
  have hmem : ∀ x, x ∈ get_all_nodes_load polls ↔
      x ∈ polls.map (fun p => pollToStat p.1 p.2) := by
    intro x
    simp [get_all_nodes_load, pySorted, List.mem_insertionSort]
  have hsorted : List.Sorted (byKey nodeAvg) (get_all_nodes_load polls) :=
    List.sorted_insertionSort _ _
  refine ⟨fun name => rfl, ?_, ?_, ?_⟩
  · intro s0 hs0 hq0
    obtain ⟨best, rest, heq, hbm, hbq, hmin⟩ :=
      availableNodes_qualified cT mT (get_all_nodes_load polls) hsorted
        s0 ((hmem s0).mpr hs0) hq0
    have hie : (get_all_nodes_load polls).isEmpty = false := by
      cases hc : get_all_nodes_load polls with
      | nil =>
        rw [hc] at hmem
        exact absurd ((hmem s0).mpr hs0) (by simp)
      | cons x xs => rfl
    refine ⟨best, ?_, (hmem best).mp hbm, hbq, ?_⟩
    · simp only [select_best_node, Bool.not_true, Bool.false_eq_true, if_false,
        hie, heq]
    · intro t ht hqt
      exact hmin t ((hmem t).mpr ht) hqt
  · intro hq s0 hs0 hon0
    obtain ⟨best, rest, heq, hbm, hbon, hmin⟩ :=
      availableNodes_degraded cT mT (get_all_nodes_load polls)
        (fun s hsm => hq s ((hmem s).mp hsm))
        s0 ((hmem s0).mpr hs0) hon0
    have hie : (get_all_nodes_load polls).isEmpty = false := by
      cases hc : get_all_nodes_load polls with
      | nil =>
        rw [hc] at hmem
        exact absurd ((hmem s0).mpr hs0) (by simp)
      | cons x xs => rfl
    refine ⟨best, ?_, (hmem best).mp hbm, hbon, ?_⟩
    · simp only [select_best_node, Bool.not_true, Bool.false_eq_true, if_false,
        hie, heq]
    · intro t ht hont
      have := hmin t ((hmem t).mpr ht) hont
      simp only [nodeAvg]
      linarith
  · intro hno hne
    have hfq : (get_all_nodes_load polls).filter (nodeQualifies cT mT) = [] := by
      rw [List.filter_eq_nil_iff]
      intro s hsm
      have hs := hno s ((hmem s).mp hsm)
      simp [nodeQualifies, hs]
    have hfon : (get_all_nodes_load polls).filter
        (fun n => n.status == "online") = [] := by
      rw [List.filter_eq_nil_iff]
      intro s hsm
      have hs := hno s ((hmem s).mp hsm)
      simp [hs]
    have havail : availableNodes cT mT (get_all_nodes_load polls) = [] := by
      simp [availableNodes, hfq, hfon, pySorted, List.insertionSort]
    have hie : (get_all_nodes_load polls).isEmpty = false := by
      have hlen : (get_all_nodes_load polls).length = polls.length := by
        simpa [get_all_nodes_load, pySorted] using
          ((List.perm_insertionSort (byKey nodeAvg)
            (polls.map (fun p => pollToStat p.1 p.2))).length_eq)
      cases hc : get_all_nodes_load polls with
      | nil =>
        rw [hc] at hlen
        exact absurd (List.length_eq_zero.mp hlen.symm) hne
      | cons x xs => rfl
    simp only [select_best_node, Bool.not_true, Bool.false_eq_true, if_false,
      hie, havail]

/-- C8 witness for the amended theorem: on `pollsTwoOnline` (both nodes
online and under threshold) the selected node qualifies and has minimal
average, and with every poll failing the selection fails with the 503. -/
theorem select_best_node_thresholds_online_amended_witness :
    (∃ best, select_best_node true "pve" pollsTwoOnline 80 80 = .ok best.node ∧
      best ∈ pollsTwoOnline.map (fun p => pollToStat p.1 p.2) ∧
      nodeQualifies 80 80 best = true ∧
      ∀ t ∈ pollsTwoOnline.map (fun p => pollToStat p.1 p.2),
        nodeQualifies 80 80 t = true → nodeAvg best ≤ nodeAvg t) ∧
    select_best_node true "pve" [("pve", none), ("pve2", none)] 80 80 =
      .error () :=
  ⟨(select_best_node_thresholds_online_amended "pve" pollsTwoOnline 80 80).2.1
      (pollToStat "pve2" (some ⟨"online", 1/4, 30, 100⟩))
      (by simp [pollsTwoOnline])
      (by simp [nodeQualifies, pollToStat]; norm_num),
   (select_best_node_thresholds_online_amended "pve"
        [("pve", none), ("pve2", none)] 80 80).2.2.2
      (by intro s hs; simp [pollToStat] at hs; rcases hs with rfl | rfl <;> decide)
      (by decide)⟩

end LinuxEdu
